import Mathlib

/-!
Shallow embedding of `src/spermatogenesis_model.py` (class `Spermatogenesis`,
with `Cell` as a trivial proteome wrapper that we inline).

Modelling conventions:
* A Python dict `{protein id: count}` is an association list with distinct
  keys, in insertion order.  `Cell` only wraps such a dict, so cells are
  represented by their proteomes directly.
* Python ints are `Int` (founder sampling can produce negative counts);
  Python floats appearing in arithmetic are modelled as `ℚ`.
* The shared numpy global generator is modelled by two oracle streams with
  cursors: a fair-coin stream (consumed bit by bit by
  `np.random.binomial(1, 0.5, n).sum()`) and a stream of standard-normal
  draws `z` (so `np.random.normal(mean, sd)` returns `mean + sd * z_k`).
* A raised Python exception is an `Except` error carrying the exception
  class that the interpreter would raise: numpy raises `ValueError` for a
  negative binomial size and for a negative normal scale, an empty dict
  makes `is_viable` divide by zero (`ZeroDivisionError`), a missing dict
  key raises `KeyError`, and a failed `assert` raises `AssertionError`.
  These concrete exceptions are what the specification groups under its
  abstract `InvalidProteomeState` / `InvalidConfiguration` error kinds.
-/

namespace Spermatogenesis

abbrev Protein := String

/-- The proteome of a `Cell`: a dict from protein id to (integer) count. -/
abbrev Proteome := List (Protein × Int)

/-- The Python exception classes raised by the code paths modelled here. -/
inductive PyErr where
  | valueError
  | zeroDivisionError
  | keyError
  | assertionError
deriving DecidableEq

/-- Python dict indexing `d[k]`: the value at the first (only) matching key. -/
def pyGet {α : Type} : List (Protein × α) → Protein → Option α
  | [], _ => none
  | (k, v) :: rest, q => if q = k then some v else pyGet rest q

/-- The fair-coin stream backing `np.random.binomial(1, 0.5, _)`, with a
cursor recording how many bits have been consumed. -/
structure RNG where
  coin : Nat → Bool
  pos : Nat

/-- `np.random.binomial(1, 0.5, n).sum()`: consume `n` coin flips and count
the successes. -/
def binomSum (g : RNG) (n : Nat) : Nat × RNG :=
  (((List.range n).filter (fun j => g.coin (g.pos + j))).length, ⟨g.coin, g.pos + n⟩)

/-- The list comprehension
`[np.random.binomial(1, 0.5, i).sum() for i in mother_prot.values()]`:
numpy raises `ValueError` at the first negative size `i`. -/
def drawList (g : RNG) : List Int → Except PyErr (List Int × RNG)
  | [] => Except.ok ([], g)
  | n :: rest =>
    if n < 0 then Except.error PyErr.valueError
    else
      let p := binomSum g n.toNat
      match drawList p.2 rest with
      | Except.ok (ks, gf) => Except.ok ((p.1 : Int) :: ks, gf)
      | Except.error e => Except.error e

/-- `Spermatogenesis.fission`: draw `k_i ~ Binomial(n_i, 1/2)` for every
protein of the mother dict, give daughter 1 the draws and daughter 2 the
elementwise difference `n_i - k_i` (both zipped back with the mother's
keys, in dict order). -/
def fission (mother : Proteome) (g : RNG) :
    Except PyErr (Proteome × Proteome × RNG) :=
  match drawList g (mother.map Prod.snd) with
  | Except.error e => Except.error e
  | Except.ok (ks, gf) =>
    Except.ok ((mother.map Prod.fst).zip ks,
      (mother.map Prod.fst).zip
        (List.zipWith (fun a b => a - b) (mother.map Prod.snd) ks), gf)

/-- `Spermatogenesis.do_meiosis`: founder → (c1, c2), c1 → (s1, s2),
c2 → (s3, s4), returning `[s1, s2, s3, s4]`. -/
def do_meiosis (founder : Proteome) (g : RNG) :
    Except PyErr (List Proteome × RNG) :=
  match fission founder g with
  | Except.error e => Except.error e
  | Except.ok (c1, c2, g1) =>
    match fission c1 g1 with
    | Except.error e => Except.error e
    | Except.ok (s1, s2, g2) =>
      match fission c2 g2 with
      | Except.error e => Except.error e
      | Except.ok (s3, s4, g3) => Except.ok ([s1, s2, s3, s4], g3)

/-- The counting loop of `is_viable`: for each protein `i` of the sperm, add
one when `sperm.proteome[i] >= cutoff * ref[i]`; `self.ref[i]` raises
`KeyError` when the key is absent. -/
def countFunc (cutoff : ℚ) (ref : List (Protein × ℚ)) : Proteome → Except PyErr Nat
  | [] => Except.ok 0
  | (k, n) :: rest =>
    match pyGet ref k with
    | none => Except.error PyErr.keyError
    | some r =>
      match countFunc cutoff ref rest with
      | Except.error e => Except.error e
      | Except.ok c => Except.ok (if cutoff * r ≤ (n : ℚ) then c + 1 else c)

/-- `Spermatogenesis.is_viable`: the proportion of functional proteins
`prot_count / len(sperm.proteome)` must reach `crucial_prot`; an empty
proteome raises `ZeroDivisionError` at the division. -/
def is_viable (cutoff crucial_prot : ℚ) (ref : List (Protein × ℚ))
    (sperm : Proteome) : Except PyErr Bool :=
  match countFunc cutoff ref sperm with
  | Except.error e => Except.error e
  | Except.ok cnt =>
    if sperm.length = 0 then Except.error PyErr.zeroDivisionError
    else Except.ok (decide (crucial_prot ≤ (cnt : ℚ) / (sperm.length : ℚ)))

/-- `Spermatogenesis.get_viable_sprems`: `sum(is_viable(i) for i in load)`. -/
def get_viable_sprems (cutoff crucial_prot : ℚ) (ref : List (Protein × ℚ)) :
    List Proteome → Except PyErr Nat
  | [] => Except.ok 0
  | s :: rest =>
    match is_viable cutoff crucial_prot ref s with
    | Except.error e => Except.error e
    | Except.ok b =>
      match get_viable_sprems cutoff crucial_prot ref rest with
      | Except.error e => Except.error e
      | Except.ok m => Except.ok ((if b then 1 else 0) + m)

/-- The standard-normal oracle stream backing `np.random.normal`, with a
cursor. -/
structure NRM where
  z : Nat → ℚ
  pos : Nat

/-- Python `int(...)`: truncation of a real toward zero. -/
def pyInt (q : ℚ) : Int := if 0 ≤ q then Int.floor q else -Int.floor (-q)

/-- `np.random.normal(mean, sd)`: numpy raises `ValueError` when the scale
is negative; otherwise the draw is `mean + sd * z` for the next
standard-normal oracle value `z`. -/
def normalDraw (nr : NRM) (mean sd : ℚ) : Except PyErr (ℚ × NRM) :=
  if sd < 0 then Except.error PyErr.valueError
  else Except.ok (mean + sd * nr.z nr.pos, ⟨nr.z, nr.pos + 1⟩)

/-- `Spermatogenesis.randomize_proteome`: for each reference protein, draw
`int(np.random.normal(mean, mean * cv))`. -/
def randomize_proteome (cv : ℚ) : List (Protein × ℚ) → NRM →
    Except PyErr (Proteome × NRM)
  | [], nr => Except.ok ([], nr)
  | (k, mean) :: rest, nr =>
    match normalDraw nr mean (mean * cv) with
    | Except.error e => Except.error e
    | Except.ok (x, nr1) =>
      match randomize_proteome cv rest nr1 with
      | Except.error e => Except.error e
      | Except.ok (p, nrf) => Except.ok ((k, pyInt x) :: p, nrf)

/-- A Python numeric value together with its runtime type, as inspected by
`type(x) is float`. -/
inductive PyNum where
  | int : Int → PyNum
  | float : ℚ → PyNum

/-- The state of a `Spermatogenesis` object after successful construction. -/
structure Sperma where
  ref : List (Protein × ℚ)
  cv : ℚ
  spermatogonia : Proteome
  cutoff : ℚ
  crucial_prot : ℚ

/-- `Spermatogenesis.__init__`: assert `type(cutoff) is float` and
`type(crucial_prot) is float`, then sample a founder proteome (which is
where a negative `cv` can make numpy raise) and store the parameters.
No range check is performed on any parameter. -/
def init (ref : List (Protein × ℚ)) (cutoff crucial_prot : PyNum) (cv : ℚ)
    (nr : NRM) : Except PyErr (Sperma × NRM) :=
  match cutoff with
  | PyNum.int _ => Except.error PyErr.assertionError
  | PyNum.float c =>
    match crucial_prot with
    | PyNum.int _ => Except.error PyErr.assertionError
    | PyNum.float cp =>
      match randomize_proteome cv ref nr with
      | Except.error e => Except.error e
      | Except.ok (p, nrf) => Except.ok (⟨ref, cv, p, c, cp⟩, nrf)

/-- The mutable per-run state threaded through `make_sperms`: the current
spermatogonium and the positions of both random streams. -/
structure SimState where
  founder : Proteome
  g : RNG
  nr : NRM

/-- `Spermatogenesis.make_sperms`: `t` iterations, each running
`do_meiosis` on the current spermatogonium, extending the `sperms` list by
the four gametes, then resampling a fresh spermatogonium.  The returned
list is what the method stores in `self.load`. -/
def make_sperms (cv : ℚ) (ref : List (Protein × ℚ)) :
    Nat → SimState → Except PyErr (List Proteome × SimState)
  | 0, st => Except.ok ([], st)
  | t + 1, st =>
    match do_meiosis st.founder st.g with
    | Except.error e => Except.error e
    | Except.ok (oneRound, g1) =>
      match randomize_proteome cv ref st.nr with
      | Except.error e => Except.error e
      | Except.ok (p1, nr1) =>
        match make_sperms cv ref t ⟨p1, g1, nr1⟩ with
        | Except.error e => Except.error e
        | Except.ok (rest, stf) => Except.ok (oneRound ++ rest, stf)

/-- Fixed all-tails coin stream used by concrete witnesses. -/
def g0 : RNG := ⟨fun _ => false, 0⟩

/-- Fixed all-zero normal oracle used by concrete witnesses. -/
def nr0 : NRM := ⟨fun _ => 0, 0⟩

/-- The number of functional proteins of a gamete, written from the
specification of the viability classifier: the proteins `i` of the gamete
with `gamete[i] >= cutoff * reference[i]` (all gamete keys are expected to
be present in the reference). -/
def specFunctionalCount (cutoff : ℚ) (ref : List (Protein × ℚ))
    (gamete : Proteome) : Nat :=
  (gamete.filter fun kv =>
    decide (cutoff * ((pyGet ref kv.1).getD 0) ≤ (kv.2 : ℚ))).length

end Spermatogenesis

namespace Spermatogenesis

lemma zip_draw_lookup :
    ∀ (mother : Proteome) (g : RNG) (ks : List Int) (gf : RNG),
      drawList g (mother.map Prod.snd) = Except.ok (ks, gf) →
      ∀ k n, pyGet mother k = some n →
        ∃ a : Int, 0 ≤ a ∧ a ≤ n ∧
          pyGet ((mother.map Prod.fst).zip ks) k = some a ∧
          pyGet ((mother.map Prod.fst).zip
            (List.zipWith (fun x y => x - y) (mother.map Prod.snd) ks)) k
            = some (n - a)
  | [], _, _, _, _, k, n, hk => by simp [pyGet] at hk
  | (k0, n0) :: t, g, ks, gf, hd, k, n, hk => by
    simp only [List.map_cons, drawList] at hd
    by_cases hneg : n0 < 0
    · rw [if_pos hneg] at hd
      exact absurd hd (by simp)
    · rw [if_neg hneg] at hd
      cases hrec : drawList (binomSum g n0.toNat).2 (t.map Prod.snd) with
      | error e => rw [hrec] at hd; exact absurd hd (by simp)
      | ok pr =>
        rw [hrec] at hd
        obtain ⟨ks', gf'⟩ := pr
        simp only [Except.ok.injEq, Prod.mk.injEq] at hd
        obtain ⟨hks, hgf⟩ := hd
        subst hks
        by_cases hkk : k = k0
        · simp only [pyGet, if_pos hkk] at hk
          injection hk with hn
          subst hn
          have h1 : (binomSum g n0.toNat).1 ≤ n0.toNat := by
            simpa [binomSum] using
              List.length_filter_le _ (List.range n0.toNat)
          refine ⟨((binomSum g n0.toNat).1 : Int), by positivity, by omega, ?_, ?_⟩
          · simp [pyGet, hkk, List.zip_cons_cons]
          · simp [pyGet, hkk, List.zip_cons_cons, List.zipWith_cons_cons]
        · simp only [pyGet, if_neg hkk] at hk
          obtain ⟨a, ha0, han, hA, hB⟩ :=
            zip_draw_lookup t (binomSum g n0.toNat).2 ks' gf
              (by rw [hrec, hgf]) k n hk
          refine ⟨a, ha0, han, ?_, ?_⟩
          · simpa [List.zip_cons_cons, pyGet, hkk] using hA
          · simpa [List.zip_cons_cons, List.zipWith_cons_cons, pyGet, hkk] using hB

end Spermatogenesis

namespace Spermatogenesis

lemma fission_ok_lookup (mother : Proteome) (g : RNG) (dA dB : Proteome)
    (gf : RNG) (h : fission mother g = Except.ok (dA, dB, gf)) :
    ∀ k n, pyGet mother k = some n →
      ∃ a : Int, 0 ≤ a ∧ a ≤ n ∧ pyGet dA k = some a ∧ pyGet dB k = some (n - a) := by
  intro k n hk
  unfold fission at h
  cases hd : drawList g (mother.map Prod.snd) with
  | error e => rw [hd] at h; exact absurd h (by simp)
  | ok pr =>
    rw [hd] at h
    obtain ⟨ks, gf'⟩ := pr
    simp only [Except.ok.injEq, Prod.mk.injEq] at h
    obtain ⟨hA, hB, hg⟩ := h
    obtain ⟨a, h0, h1, h2, h3⟩ := zip_draw_lookup mother g ks gf' hd k n hk
    exact ⟨a, h0, h1, by rw [← hA]; exact h2, by rw [← hB]; exact h3⟩

lemma drawList_ok_of_nonneg :
    ∀ (ns : List Int) (g : RNG), (∀ n ∈ ns, 0 ≤ n) →
      ∃ ks gf, drawList g ns = Except.ok (ks, gf)
  | [], g, _ => ⟨[], g, rfl⟩
  | n :: rest, g, h => by
    have hn : ¬n < 0 := by
      have := h n (by simp)
      omega
    obtain ⟨ks, gf, hrec⟩ :=
      drawList_ok_of_nonneg rest (binomSum g n.toNat).2
        (fun m hm => h m (by simp [hm]))
    exact ⟨((binomSum g n.toNat).1 : Int) :: ks, gf, by
      simp only [drawList, if_neg hn, hrec]⟩

lemma drawList_err_of_neg :
    ∀ (ns : List Int) (g : RNG), (∃ n ∈ ns, n < 0) →
      drawList g ns = Except.error PyErr.valueError
  | [], _, h => by simp at h
  | n :: rest, g, h => by
    by_cases hn : n < 0
    · simp [drawList, if_pos hn]
    · obtain ⟨m, hm, hmneg⟩ := h
      rcases List.mem_cons.mp hm with rfl | hm'
      · exact absurd hmneg hn
      · have hrec := drawList_err_of_neg rest (binomSum g n.toNat).2 ⟨m, hm', hmneg⟩
        simp [drawList, if_neg hn, hrec]

/-- C1: a single `fission` call conserves every protein count: for every
protein `i` of the parent dict, `daughterA[i] + daughterB[i] = mother[i]`. -/
theorem fission_conservation (mother : Proteome) (g : RNG)
    (dA dB : Proteome) (gf : RNG)
    (_hkeys : (mother.map Prod.fst).Nodup)
    (h : fission mother g = Except.ok (dA, dB, gf)) :
    ∀ k n, pyGet mother k = some n →
      ∃ a b, pyGet dA k = some a ∧ pyGet dB k = some b ∧ a + b = n := by
  intro k n hk
  obtain ⟨a, _, _, h2, h3⟩ := fission_ok_lookup mother g dA dB gf h k n hk
  exact ⟨a, n - a, h2, h3, by omega⟩

/-- Witness for C1 on the parent `{"A": 3}` with an all-heads coin stream. -/
theorem fission_conservation_witness :
    ∃ a b, pyGet [("A", (3 : Int))] "A" = some a ∧
      pyGet [("A", (0 : Int))] "A" = some b ∧ a + b = 3 :=
  fission_conservation [("A", 3)] ⟨fun _ => true, 0⟩
    [("A", 3)] [("A", 0)] ⟨fun _ => true, 3⟩ (by decide) rfl "A" 3 rfl

/-- C2: whenever the three `fission` calls succeed, `do_meiosis` splits the
founder into `(c1, c2)`, then `c1` into `(s1, s2)` and `c2` into
`(s3, s4)`, and returns exactly the 4 gametes `[s1, s2, s3, s4]`. -/
theorem do_meiosis_structure (f : Proteome) (g g1 g2 g3 : RNG)
    (c1 c2 s1 s2 s3 s4 : Proteome)
    (h1 : fission f g = Except.ok (c1, c2, g1))
    (h2 : fission c1 g1 = Except.ok (s1, s2, g2))
    (h3 : fission c2 g2 = Except.ok (s3, s4, g3)) :
    do_meiosis f g = Except.ok ([s1, s2, s3, s4], g3) ∧
      ([s1, s2, s3, s4] : List Proteome).length = 4 := by
  refine ⟨?_, rfl⟩
  unfold do_meiosis
  rw [h1]
  dsimp only
  rw [h2]
  dsimp only
  rw [h3]

/-- Witness for C2 on the empty founder proteome. -/
theorem do_meiosis_structure_witness :
    do_meiosis [] g0 = Except.ok ([[], [], [], []], g0) ∧
      ([[], [], [], []] : List Proteome).length = 4 :=
  do_meiosis_structure [] g0 g0 g0 g0 [] [] [] [] [] [] rfl rfl rfl

/-- C6: `fission` raises (numpy `ValueError`, the spec's
`InvalidProteomeState`) whenever some protein count of the input proteome
is negative, and `is_viable` fails fast on a gamete with zero protein keys
(`ZeroDivisionError` at `prot_count / float(len(...))`) instead of
returning a classification. -/
theorem fail_fast_on_invalid_proteome (mother : Proteome) (g : RNG)
    (cutoff crucial_prot : ℚ) (ref : List (Protein × ℚ))
    (h : ∃ kv ∈ mother, kv.2 < 0) :
    fission mother g = Except.error PyErr.valueError ∧
      is_viable cutoff crucial_prot ref [] = Except.error PyErr.zeroDivisionError := by
  constructor
  · obtain ⟨kv, hmem, hneg⟩ := h
    have hd := drawList_err_of_neg (mother.map Prod.snd) g
      ⟨kv.2, List.mem_map_of_mem Prod.snd hmem, hneg⟩
    unfold fission
    rw [hd]
  · rfl

/-- Witness for C6 on the parent `{"A": -1}`. -/
theorem fail_fast_on_invalid_proteome_witness :
    fission [("A", (-1 : Int))] g0 = Except.error PyErr.valueError ∧
      is_viable (1/2) 1 [] [] = Except.error PyErr.zeroDivisionError :=
  fail_fast_on_invalid_proteome [("A", (-1 : Int))] g0 (1/2) 1 []
    ⟨("A", -1), by decide⟩

/-- C8: on a parent proteome with no negative count, `fission` succeeds,
and every protein with parent count `0` is assigned `0` copies in both
daughters. -/
theorem fission_zero_count (mother : Proteome) (g : RNG)
    (hpos : ∀ kv ∈ mother, 0 ≤ kv.2) :
    ∃ dA dB gf, fission mother g = Except.ok (dA, dB, gf) ∧
      ∀ k, pyGet mother k = some 0 →
        pyGet dA k = some 0 ∧ pyGet dB k = some 0 := by
  obtain ⟨ks, gf, hd⟩ := drawList_ok_of_nonneg (mother.map Prod.snd) g
    (by intro m hm
        obtain ⟨kv, hkv, rfl⟩ := List.mem_map.mp hm
        exact hpos kv hkv)
  refine ⟨(mother.map Prod.fst).zip ks,
    (mother.map Prod.fst).zip
      (List.zipWith (fun a b => a - b) (mother.map Prod.snd) ks), gf, ?_, ?_⟩
  · unfold fission; rw [hd]
  · intro k hk
    obtain ⟨a, h0, h1, h2, h3⟩ := zip_draw_lookup mother g ks gf hd k 0 hk
    have : a = 0 := by omega
    subst this
    exact ⟨h2, by simpa using h3⟩

/-- Witness for C8 on the parent `{"A": 0}`. -/
theorem fission_zero_count_witness :
    ∃ dA dB gf, fission [("A", (0 : Int))] g0 = Except.ok (dA, dB, gf) ∧
      ∀ k, pyGet [("A", (0 : Int))] k = some 0 →
        pyGet dA k = some 0 ∧ pyGet dB k = some 0 :=
  fission_zero_count [("A", 0)] g0 (by decide)

end Spermatogenesis

namespace Spermatogenesis

lemma pyGet_mem {α : Type} :
    ∀ (l : List (Protein × α)) (k : Protein) (v : α),
      pyGet l k = some v → (k, v) ∈ l
  | [], _, _, h => by simp [pyGet] at h
  | (k0, v0) :: t, k, v, h => by
    simp only [pyGet] at h
    by_cases hk : k = k0
    · rw [if_pos hk] at h
      injection h with h
      subst hk; subst h; simp
    · rw [if_neg hk] at h
      exact List.mem_cons_of_mem _ (pyGet_mem t k v h)

lemma countFunc_ok_spec (cutoff : ℚ) (ref : List (Protein × ℚ)) :
    ∀ (sperm : Proteome) (c : Nat),
      countFunc cutoff ref sperm = Except.ok c →
      c = specFunctionalCount cutoff ref sperm
  | [], c, h => by
    simp only [countFunc, Except.ok.injEq] at h
    simp [specFunctionalCount, ← h]
  | (k, n) :: rest, c, h => by
    simp only [countFunc] at h
    cases hr : pyGet ref k with
    | none => rw [hr] at h; exact absurd h (by simp)
    | some r =>
      rw [hr] at h
      cases hc : countFunc cutoff ref rest with
      | error e => rw [hc] at h; exact absurd h (by simp)
      | ok c' =>
        rw [hc] at h
        simp only [Except.ok.injEq] at h
        have hrec := countFunc_ok_spec cutoff ref rest c' hc
        subst h
        by_cases hcond : cutoff * r ≤ (n : ℚ)
        · simp [specFunctionalCount, List.filter_cons, hr, hcond, hrec]
        · simp [specFunctionalCount, List.filter_cons, hr, hcond, hrec]

lemma is_viable_ok (cutoff crucial_prot : ℚ) (ref : List (Protein × ℚ))
    (sperm : Proteome) (b : Bool)
    (h : is_viable cutoff crucial_prot ref sperm = Except.ok b) :
    ∃ cnt, countFunc cutoff ref sperm = Except.ok cnt ∧ sperm.length ≠ 0 ∧
      b = decide (crucial_prot ≤ (cnt : ℚ) / (sperm.length : ℚ)) := by
  unfold is_viable at h
  cases hc : countFunc cutoff ref sperm with
  | error e => rw [hc] at h; exact absurd h (by simp)
  | ok cnt =>
    rw [hc] at h
    dsimp only at h
    by_cases hlen : sperm.length = 0
    · rw [if_pos hlen] at h; exact absurd h (by simp)
    · rw [if_neg hlen] at h
      simp only [Except.ok.injEq] at h
      exact ⟨cnt, rfl, hlen, h.symm⟩

/-- C3: for a gamete with at least one protein key (and every key priced in
the reference), `is_viable` returns `true` iff the fraction of proteins
`i` with `gamete[i] >= cutoff * ref[i]` over the number of protein keys of
the gamete reaches `crucial_prot`, both comparisons being inclusive. -/
theorem is_viable_spec (cutoff crucial_prot : ℚ) (ref : List (Protein × ℚ))
    (sperm : Proteome) (b : Bool)
    (_hne : sperm ≠ [])
    (h : is_viable cutoff crucial_prot ref sperm = Except.ok b) :
    b = true ↔
      crucial_prot ≤ (specFunctionalCount cutoff ref sperm : ℚ) / (sperm.length : ℚ) := by
  obtain ⟨cnt, hc, hlen, hb⟩ := is_viable_ok cutoff crucial_prot ref sperm b h
  rw [countFunc_ok_spec cutoff ref sperm cnt hc] at hb
  subst hb
  simp

/-- Witness for C3: the boundary gamete `{"A": 2}` against `{"A": 4}` with
`cutoff = 1/2`, `crucial_prot = 1` is viable (`2 >= (1/2)*4` inclusive). -/
theorem is_viable_spec_witness :
    is_viable (1/2) 1 [("A", (4 : ℚ))] [("A", (2 : Int))] = Except.ok true ∧
      (true = true ↔
        (1 : ℚ) ≤ (specFunctionalCount (1/2) [("A", (4 : ℚ))] [("A", (2 : Int))] : ℚ) /
          (([("A", (2 : Int))] : Proteome).length : ℚ)) := by
  have hv : is_viable (1/2) 1 [("A", (4 : ℚ))] [("A", (2 : Int))] = Except.ok true := by
    simp [is_viable, countFunc, pyGet]
    norm_num
  exact ⟨hv, is_viable_spec (1/2) 1 [("A", (4 : ℚ))] [("A", (2 : Int))] true (by simp) hv⟩

lemma countFunc_anti (cutoff1 cutoff2 : ℚ) (ref : List (Protein × ℚ))
    (h12 : cutoff1 ≤ cutoff2) (href : ∀ kv ∈ ref, 0 ≤ kv.2) :
    ∀ (sperm : Proteome) (m1 m2 : Nat),
      countFunc cutoff1 ref sperm = Except.ok m1 →
      countFunc cutoff2 ref sperm = Except.ok m2 → m2 ≤ m1
  | [], m1, m2, h1, h2 => by
    simp only [countFunc, Except.ok.injEq] at h1 h2
    omega
  | (k, n) :: rest, m1, m2, h1, h2 => by
    simp only [countFunc] at h1 h2
    cases hr : pyGet ref k with
    | none => rw [hr] at h1; exact absurd h1 (by simp)
    | some r =>
      rw [hr] at h1 h2
      cases hc1 : countFunc cutoff1 ref rest with
      | error e => rw [hc1] at h1; exact absurd h1 (by simp)
      | ok c1 =>
        cases hc2 : countFunc cutoff2 ref rest with
        | error e => rw [hc2] at h2; exact absurd h2 (by simp)
        | ok c2 =>
          rw [hc1] at h1
          rw [hc2] at h2
          simp only [Except.ok.injEq] at h1 h2
          have hrec := countFunc_anti cutoff1 cutoff2 ref h12 href rest c1 c2 hc1 hc2
          have hr0 : (0 : ℚ) ≤ r := href (k, r) (pyGet_mem ref k r hr)
          subst h1; subst h2
          by_cases hcond2 : cutoff2 * r ≤ (n : ℚ)
          · have hcond1 : cutoff1 * r ≤ (n : ℚ) :=
              le_trans (mul_le_mul_of_nonneg_right h12 hr0) hcond2
            rw [if_pos hcond1, if_pos hcond2]
            omega
          · rw [if_neg hcond2]
            by_cases hcond1 : cutoff1 * r ≤ (n : ℚ)
            · rw [if_pos hcond1]; omega
            · rw [if_neg hcond1]; omega

lemma is_viable_anti (cutoff1 cutoff2 crucial_prot : ℚ)
    (ref : List (Protein × ℚ)) (sperm : Proteome) (b1 b2 : Bool)
    (h12 : cutoff1 ≤ cutoff2) (href : ∀ kv ∈ ref, 0 ≤ kv.2)
    (h1 : is_viable cutoff1 crucial_prot ref sperm = Except.ok b1)
    (h2 : is_viable cutoff2 crucial_prot ref sperm = Except.ok b2) :
    b2 = true → b1 = true := by
  intro hb2
  obtain ⟨m1, hc1, hlen, hb1d⟩ := is_viable_ok cutoff1 crucial_prot ref sperm b1 h1
  obtain ⟨m2, hc2, -, hb2d⟩ := is_viable_ok cutoff2 crucial_prot ref sperm b2 h2
  have hm := countFunc_anti cutoff1 cutoff2 ref h12 href sperm m1 m2 hc1 hc2
  rw [hb2d] at hb2
  have hcr : crucial_prot ≤ (m2 : ℚ) / (sperm.length : ℚ) := of_decide_eq_true hb2
  have hlpos : (0 : ℚ) < (sperm.length : ℚ) := by
    have : 0 < sperm.length := Nat.pos_of_ne_zero hlen
    exact_mod_cast this
  have hdiv : (m2 : ℚ) / (sperm.length : ℚ) ≤ (m1 : ℚ) / (sperm.length : ℚ) :=
    (div_le_div_iff_of_pos_right hlpos).mpr (by exact_mod_cast hm)
  rw [hb1d]
  exact decide_eq_true (le_trans hcr hdiv)

lemma get_viable_sprems_anti (cutoff1 cutoff2 crucial_prot : ℚ)
    (ref : List (Protein × ℚ)) :
    ∀ (gametes : List Proteome) (n1 n2 : Nat),
      cutoff1 ≤ cutoff2 →
      (∀ kv ∈ ref, 0 ≤ kv.2) →
      get_viable_sprems cutoff1 crucial_prot ref gametes = Except.ok n1 →
      get_viable_sprems cutoff2 crucial_prot ref gametes = Except.ok n2 →
      n2 ≤ n1
  | [], n1, n2, _, _, h1, h2 => by
    simp only [get_viable_sprems, Except.ok.injEq] at h1 h2
    omega
  | s :: rest, n1, n2, h12, href, h1, h2 => by
    simp only [get_viable_sprems] at h1 h2
    cases hv1 : is_viable cutoff1 crucial_prot ref s with
    | error e => rw [hv1] at h1; exact absurd h1 (by simp)
    | ok b1 =>
      cases hv2 : is_viable cutoff2 crucial_prot ref s with
      | error e => rw [hv2] at h2; exact absurd h2 (by simp)
      | ok b2 =>
        rw [hv1] at h1
        rw [hv2] at h2
        cases hg1 : get_viable_sprems cutoff1 crucial_prot ref rest with
        | error e => rw [hg1] at h1; exact absurd h1 (by simp)
        | ok m1 =>
          cases hg2 : get_viable_sprems cutoff2 crucial_prot ref rest with
          | error e => rw [hg2] at h2; exact absurd h2 (by simp)
          | ok m2 =>
            rw [hg1] at h1
            rw [hg2] at h2
            simp only [Except.ok.injEq] at h1 h2
            have hrec := get_viable_sprems_anti cutoff1 cutoff2 crucial_prot ref
              rest m1 m2 h12 href hg1 hg2
            have himp := is_viable_anti cutoff1 cutoff2 crucial_prot ref s b1 b2
              h12 href hv1 hv2
            subst h1; subst h2
            cases b2 with
            | false => cases b1 <;> simp <;> omega
            | true => rw [himp rfl]; simp; omega

/-- C5: on a fixed reference proteome with non-negative counts and a fixed
list of gametes (the same hold of cells that identical random draws would
produce), raising `cutoff` while holding `crucial_prot` and the reference
fixed never raises the viable count reported by `get_viable_sprems`. -/
theorem viable_count_antitone (cutoff1 cutoff2 crucial_prot : ℚ)
    (ref : List (Protein × ℚ)) (gametes : List Proteome) (n1 n2 : Nat)
    (h12 : cutoff1 ≤ cutoff2)
    (href : ∀ kv ∈ ref, 0 ≤ kv.2)
    (h1 : get_viable_sprems cutoff1 crucial_prot ref gametes = Except.ok n1)
    (h2 : get_viable_sprems cutoff2 crucial_prot ref gametes = Except.ok n2) :
    n2 ≤ n1 :=
  get_viable_sprems_anti cutoff1 cutoff2 crucial_prot ref gametes n1 n2 h12 href h1 h2

/-- Witness for C5: with reference `{"A": 4}` and the single gamete
`{"A": 2}`, raising the cutoff from 1/2 to 1 drops the viable count from
1 to 0. -/
theorem viable_count_antitone_witness :
    get_viable_sprems (1/2) 1 [("A", (4 : ℚ))] [[("A", (2 : Int))]] = Except.ok 1 ∧
      get_viable_sprems 1 1 [("A", (4 : ℚ))] [[("A", (2 : Int))]] = Except.ok 0 ∧
      (0 : Nat) ≤ 1 := by
  have hg1 : get_viable_sprems (1/2) 1 [("A", (4 : ℚ))] [[("A", (2 : Int))]] = Except.ok 1 := by
    simp [get_viable_sprems, is_viable, countFunc, pyGet]
    norm_num
  have hg2 : get_viable_sprems 1 1 [("A", (4 : ℚ))] [[("A", (2 : Int))]] = Except.ok 0 := by
    simp [get_viable_sprems, is_viable, countFunc, pyGet]
    norm_num
  exact ⟨hg1, hg2, viable_count_antitone (1/2) 1 1 [("A", (4 : ℚ))]
    [[("A", (2 : Int))]] 1 0 (by norm_num) (by norm_num) hg1 hg2⟩

end Spermatogenesis

namespace Spermatogenesis

lemma randomize_err (cv : ℚ) :
    ∀ (ref : List (Protein × ℚ)) (nr : NRM) (e : PyErr),
      randomize_proteome cv ref nr = Except.error e → e = PyErr.valueError
  | [], _, _, h => by simp [randomize_proteome] at h
  | (k, mean) :: rest, nr, e, h => by
    simp only [randomize_proteome, normalDraw] at h
    by_cases hsd : mean * cv < 0
    · rw [if_pos hsd] at h
      dsimp only at h
      injection h with h
      exact h.symm
    · rw [if_neg hsd] at h
      dsimp only at h
      cases hrec : randomize_proteome cv rest ⟨nr.z, nr.pos + 1⟩ with
      | error e0 =>
        rw [hrec] at h
        dsimp only at h
        injection h with h
        rw [← h]
        exact randomize_err cv rest ⟨nr.z, nr.pos + 1⟩ e0 hrec
      | ok pr => rw [hrec] at h; exact absurd h (by simp)

/-- C10: `__init__` demands the exact Python type `float` for `cutoff` and
`crucial_prot`: an `int` argument (such as the in-range value `1`) trips
an `assert` in either position, while any pair of float values — in
particular floats outside `(0, 1]` — passes both asserts, so construction
can only fail further on, in founder sampling (numpy `ValueError`). -/
theorem init_float_typecheck :
    (∀ (ref : List (Protein × ℚ)) (n : Int) (cp : PyNum) (cv : ℚ) (nr : NRM),
      init ref (PyNum.int n) cp cv nr = Except.error PyErr.assertionError) ∧
    (∀ (ref : List (Protein × ℚ)) (q : ℚ) (i : Int) (cv : ℚ) (nr : NRM),
      init ref (PyNum.float q) (PyNum.int i) cv nr = Except.error PyErr.assertionError) ∧
    (∀ (ref : List (Protein × ℚ)) (q q' cv : ℚ) (nr : NRM),
      (∃ s nrf, init ref (PyNum.float q) (PyNum.float q') cv nr = Except.ok (s, nrf)) ∨
        init ref (PyNum.float q) (PyNum.float q') cv nr = Except.error PyErr.valueError) := by
  refine ⟨fun _ _ _ _ _ => rfl, fun _ _ _ _ _ => rfl, fun ref q q' cv nr => ?_⟩
  cases hr : randomize_proteome cv ref nr with
  | error e =>
    right
    have he := randomize_err cv ref nr e hr
    subst he
    simp only [init, hr]
  | ok pr =>
    left
    exact ⟨⟨ref, cv, pr.1, q, q'⟩, pr.2, by simp only [init, hr]⟩

/-- Counterexample to C7: constructing with the out-of-range floats
`cutoff = 2` and `crucial_prot = 3/2` succeeds — `__init__` performs no
range validation, so no `InvalidConfiguration`-style failure happens at
construction time. -/
theorem init_no_range_check :
    init [("A", (100 : ℚ))] (PyNum.float 2) (PyNum.float (3/2)) 0 nr0 =
      Except.ok (⟨[("A", 100)], 0, [("A", 100)], 2, 3/2⟩, ⟨nr0.z, 1⟩) := by
  simp [init, randomize_proteome, normalDraw, pyInt, nr0]

/-- C7 (amended): the only construction-time failures are the exact-float
`assert`s and the numpy `ValueError` that a negative `cv` provokes while
`__init__` samples the founder proteome (here: a non-empty reference with
positive counts). -/
theorem init_negative_cv_fails (ref : List (Protein × ℚ)) (c cp cv : ℚ)
    (nr : NRM)
    (hne : ref ≠ [])
    (hpos : ∀ kv ∈ ref, 0 < kv.2)
    (hcv : cv < 0) :
    init ref (PyNum.float c) (PyNum.float cp) cv nr = Except.error PyErr.valueError := by
  obtain ⟨⟨k, mean⟩, rest, rfl⟩ : ∃ p rest, ref = p :: rest := by
    cases ref with
    | nil => exact absurd rfl hne
    | cons p rest => exact ⟨p, rest, rfl⟩
  have hmean : (0 : ℚ) < mean := hpos (k, mean) (by simp)
  have hmc : mean * cv < 0 := mul_neg_of_pos_of_neg hmean hcv
  simp [init, randomize_proteome, normalDraw, hmc]

/-- Witness for C7's amended theorem: `cv = -1` with reference `{"A": 100}`
makes construction raise. -/
theorem init_negative_cv_fails_witness :
    ([("A", (100 : ℚ))] : List (Protein × ℚ)) ≠ [] ∧
      init [("A", (100 : ℚ))] (PyNum.float (1/2)) (PyNum.float (1/2)) (-1) nr0 =
        Except.error PyErr.valueError :=
  ⟨by simp, init_negative_cv_fails [("A", 100)] (1/2) (1/2) (-1) nr0
    (by simp) (by norm_num) (by norm_num)⟩

lemma do_meiosis_ok_len (f : Proteome) (g : RNG) (l : List Proteome) (gf : RNG)
    (h : do_meiosis f g = Except.ok (l, gf)) : l.length = 4 := by
  unfold do_meiosis at h
  cases h1 : fission f g with
  | error e => rw [h1] at h; exact absurd h (by simp)
  | ok p1 =>
    rw [h1] at h
    obtain ⟨c1, c2, g1⟩ := p1
    dsimp only at h
    cases h2 : fission c1 g1 with
    | error e => rw [h2] at h; exact absurd h (by simp)
    | ok p2 =>
      rw [h2] at h
      obtain ⟨s1, s2, g2⟩ := p2
      dsimp only at h
      cases h3 : fission c2 g2 with
      | error e => rw [h3] at h; exact absurd h (by simp)
      | ok p3 =>
        rw [h3] at h
        obtain ⟨s3, s4, g3⟩ := p3
        dsimp only at h
        simp only [Except.ok.injEq, Prod.mk.injEq] at h
        rw [← h.1]
        rfl

lemma make_sperms_len (cv : ℚ) (ref : List (Protein × ℚ)) :
    ∀ (t : Nat) (st : SimState) (sperms : List Proteome) (stf : SimState),
      make_sperms cv ref t st = Except.ok (sperms, stf) → sperms.length = 4 * t
  | 0, st, sperms, stf, h => by
    simp only [make_sperms, Except.ok.injEq, Prod.mk.injEq] at h
    rw [← h.1]
    rfl
  | t + 1, st, sperms, stf, h => by
    simp only [make_sperms] at h
    cases hm : do_meiosis st.founder st.g with
    | error e => rw [hm] at h; exact absurd h (by simp)
    | ok pm =>
      rw [hm] at h
      obtain ⟨oneRound, g1⟩ := pm
      dsimp only at h
      cases hrd : randomize_proteome cv ref st.nr with
      | error e => rw [hrd] at h; exact absurd h (by simp)
      | ok prd =>
        rw [hrd] at h
        obtain ⟨p1, nr1⟩ := prd
        dsimp only at h
        cases hrec : make_sperms cv ref t ⟨p1, g1, nr1⟩ with
        | error e => rw [hrec] at h; exact absurd h (by simp)
        | ok pr =>
          rw [hrec] at h
          obtain ⟨rest, stf'⟩ := pr
          dsimp only at h
          simp only [Except.ok.injEq, Prod.mk.injEq] at h
          have h4 := do_meiosis_ok_len st.founder st.g oneRound g1 hm
          have hlen := make_sperms_len cv ref t ⟨p1, g1, nr1⟩ rest stf' hrec
          rw [← h.1, List.length_append, h4, hlen]
          omega

/-- C4: whenever `make_sperms t` completes, the accumulated sperm list —
4 gametes per trial over `t` trials — has length exactly `4 * t`. -/
theorem make_sperms_total_count (cv : ℚ) (ref : List (Protein × ℚ))
    (t : Nat) (st : SimState) (sperms : List Proteome) (stf : SimState)
    (h : make_sperms cv ref t st = Except.ok (sperms, stf)) :
    sperms.length = 4 * t :=
  make_sperms_len cv ref t st sperms stf h

/-- Witness for C4 with an empty reference proteome and one trial. -/
theorem make_sperms_total_count_witness :
    make_sperms 0 [] 1 ⟨[], g0, nr0⟩ = Except.ok ([[], [], [], []], ⟨[], g0, nr0⟩) ∧
      ([[], [], [], []] : List Proteome).length = 4 * 1 :=
  ⟨rfl, make_sperms_total_count 0 [] 1 ⟨[], g0, nr0⟩ [[], [], [], []]
    ⟨[], g0, nr0⟩ rfl⟩

/-- Counterexample to C9: the value `make_sperms` keeps in `self.load` is
the full list of gametes of every trial — 4 cells after 1 trial, 8 cells
after 2 trials — so the retained per-trial state grows with the trial
count instead of being a pair of O(1) tallies. -/
theorem make_sperms_retains_all_gametes :
    make_sperms 0 [] 1 ⟨[], g0, nr0⟩ = Except.ok ([[], [], [], []], ⟨[], g0, nr0⟩) ∧
      make_sperms 0 [] 2 ⟨[], g0, nr0⟩ =
        Except.ok ([[], [], [], [], [], [], [], []], ⟨[], g0, nr0⟩) ∧
      ([[], [], [], []] : List Proteome).length = 4 ∧
      ([[], [], [], [], [], [], [], []] : List Proteome).length = 8 :=
  ⟨rfl, rfl, rfl, rfl⟩

/-- C9 (amended): `make_sperms` retains every gamete it produces in
`self.load`, so each additional trial grows the retained list by 4 — the
retained state is Θ(t), not O(1). -/
theorem make_sperms_load_linear (cv : ℚ) (ref : List (Protein × ℚ))
    (t : Nat) (st : SimState) (sperms sperms' : List Proteome)
    (stf stf' : SimState)
    (h : make_sperms cv ref t st = Except.ok (sperms, stf))
    (h' : make_sperms cv ref (t + 1) st = Except.ok (sperms', stf')) :
    sperms'.length = sperms.length + 4 := by
  have e1 := make_sperms_len cv ref t st sperms stf h
  have e2 := make_sperms_len cv ref (t + 1) st sperms' stf' h'
  omega

/-- Witness for C9's amended theorem: going from 1 to 2 trials grows the
retained list from 4 to 8 gametes. -/
theorem make_sperms_load_linear_witness :
    ([[], [], [], [], [], [], [], []] : List Proteome).length =
      ([[], [], [], []] : List Proteome).length + 4 :=
  make_sperms_load_linear 0 [] 1 ⟨[], g0, nr0⟩ [[], [], [], []]
    [[], [], [], [], [], [], [], []] ⟨[], g0, nr0⟩ ⟨[], g0, nr0⟩ rfl rfl

end Spermatogenesis
